import Mathlib

/-!
Shallow embedding of the bus-complaint Flask application (src/app.py).

Modelling conventions:
* `DateTime` is a natural number of minutes since an epoch; a calendar
  date parsed by `datetime.strptime(s, "%Y-%m-%d")` lands on midnight,
  modelled by `dateToDateTime d = d * minutesPerDay`; `timedelta(days=1)`
  is `minutesPerDay` minutes.
* MongoDB collections are Lean lists of documents; `insert_one` appends,
  `find` with a predicate is `List.filter`, `find_one_and_update` updates
  the first matching document.  Mongo-generated `_id` values are supplied
  as explicit `Nat` parameters; the `ObjectId`/`str` round-trip of the
  code is modelled as the identity on those `Nat` ids.
* `datetime.strptime` for `%Y-%m-%d` is an abstract parameter
  `strptime : String → Option DateTime` (parse failure = `none`,
  which the code catches in its `except` branch).
* The mail transport (`mail.send`, which may raise) is a parameter of
  type `Except String Unit`; `send_email` wraps it in try/except and
  returns a `Bool`, exactly as in the code.
* Python truthiness of a form field (`request.form.get` returning `None`
  or the empty string) is `isBlank` on `Option String`.
-/

abbrev DateTime := Nat

def minutesPerDay : Nat := 1440

abbrev Date := Nat

def dateToDateTime (d : Date) : DateTime := d * minutesPerDay

/-- Python `a.startswith(b)`-style check on character lists: the first
list is a leading segment of the second. -/
def leadsList : List Char → List Char → Bool
  | [], _ => true
  | _ :: _, [] => false
  | a :: as, b :: bs => (a == b) && leadsList as bs

/-- Python `needle in hay` substring containment on character lists. -/
def occursIn : List Char → List Char → Bool
  | n, [] => leadsList n []
  | n, c :: t => leadsList n (c :: t) || occursIn n t

/-- Python `s.lower()`, modelled per character on the string's
character list. -/
def pyLower (s : String) : List Char := s.data.map Char.toLower

/-- A complaint document as persisted by `submit_complaint`. -/
structure Complaint where
  cid : Nat
  user_id : Nat
  student_id : String
  bus_route : String
  title : String
  description : String
  loc : String
  status : String
  created_at : DateTime
  updated_at : DateTime
  incident_date : DateTime
deriving DecidableEq, Repr

/-- A user document as persisted by `register`. -/
structure UserRec where
  uid : Nat
  email : String
  password : String
  role : String
  created_at : DateTime
deriving DecidableEq, Repr

/-- `send_email` (src/app.py lines 28-39): tries `mail.send` and returns
`True`, returning `False` when the transport raises.  It is a total
function: the exception never escapes to the caller. -/
def send_email (mailSend : Except String Unit) : Bool :=
  match mailSend with
  | Except.ok _ => true
  | Except.error _ => false

/-- The raw submit form: `request.form.get` yields `none` when the field
is absent. -/
structure SubmitForm where
  student_id : Option String
  bus_route : Option String
  title : Option String
  description : Option String
  loc : Option String
  incident_date : Option String
deriving DecidableEq, Repr

/-- Python falsiness of a form value: missing (`None`) or empty string. -/
def isBlank : Option String → Bool
  | none => true
  | some s => s == ""

/-- The duplicate scan of `submit_complaint` (src/app.py lines 221-233):
query complaints with the same `bus_route` and `incident_date` in
`[incident_date, incident_date + 1 day)`, then return true on the first
candidate whose lowercased description contains, or is contained in, the
lowercased new description. -/
def submitDupScan (st : List Complaint) (bus_route description : String)
    (incident_date : DateTime) : Bool :=
  let next_day := incident_date + minutesPerDay
  let existing_complaints := st.filter (fun c =>
    c.bus_route == bus_route &&
    (decide (incident_date ≤ c.incident_date) && decide (c.incident_date < next_day)))
  existing_complaints.any (fun complaint =>
    let existing_description := pyLower complaint.description
    occursIn (pyLower description) existing_description ||
    occursIn existing_description (pyLower description))

/-- The duplicate scan of the `check_duplicate_complaint` endpoint
(src/app.py lines 291-305): same query and same bidirectional
containment loop as the submit path. -/
def endpointDupScan (st : List Complaint) (bus_route description : String)
    (incident_date : DateTime) : Bool :=
  let next_day := incident_date + minutesPerDay
  let existing_complaints := st.filter (fun c =>
    c.bus_route == bus_route &&
    (decide (incident_date ≤ c.incident_date) && decide (c.incident_date < next_day)))
  existing_complaints.any (fun complaint =>
    let existing_description := pyLower complaint.description
    occursIn (pyLower description) existing_description ||
    occursIn existing_description (pyLower description))

inductive CheckDupResult where
  | ok (duplicate : Bool)
  | err (msg : String)
deriving DecidableEq, Repr

/-- The `check_duplicate_complaint` JSON endpoint (src/app.py lines
281-308): parse the date, run the duplicate scan, report
`{duplicate: bool}`; any exception (e.g. date parse failure) becomes a
500 error response. -/
def check_duplicate_complaint (strptime : String → Option DateTime)
    (bus_route description incident_date_str : String)
    (st : List Complaint) : CheckDupResult :=
  match strptime incident_date_str with
  | none => CheckDupResult.err "parse"
  | some incident_date =>
      CheckDupResult.ok (endpointDupScan st bus_route description incident_date)

inductive SubmitOutcome where
  | validationError
  | duplicateRejected
  | submitError (msg : String)
  | created (emailSent : Bool)
deriving DecidableEq, Repr

/-- The POST branch of `submit_complaint` (src/app.py lines 204-274):
validate that all six fields are present and non-empty, parse the
incident date, reject duplicates without writing, otherwise insert the
new complaint document (status `pending`, `created_at = updated_at =
now`) and attempt the confirmation email.  Returns the outcome and the
complaint collection after the request. -/
def submit_complaint (strptime : String → Option DateTime)
    (currentUserId : Nat) (form : SubmitForm) (now : DateTime)
    (newId : Nat) (mailSend : Except String Unit)
    (st : List Complaint) : SubmitOutcome × List Complaint :=
  if isBlank form.student_id || isBlank form.bus_route || isBlank form.title ||
      isBlank form.description || isBlank form.loc || isBlank form.incident_date then
    (SubmitOutcome.validationError, st)
  else
    match strptime (form.incident_date.getD "") with
    | none => (SubmitOutcome.submitError "date parse", st)
    | some incident_date =>
        let bus_route := form.bus_route.getD ""
        let description := form.description.getD ""
        if submitDupScan st bus_route description incident_date then
          (SubmitOutcome.duplicateRejected, st)
        else
          let complaint_data : Complaint :=
            { cid := newId
              user_id := currentUserId
              student_id := form.student_id.getD ""
              bus_route := bus_route
              title := form.title.getD ""
              description := description
              loc := form.loc.getD ""
              status := "pending"
              created_at := now
              updated_at := now
              incident_date := incident_date }
          (SubmitOutcome.created (send_email mailSend), st ++ [complaint_data])

/-- Mongo `find_one_and_update` with `return_document=True`: update the
first document matching the id, returning the updated document, or
`none` when no document matches. -/
def find_one_and_update (complaint_id : Nat) (status : String)
    (now : DateTime) : List Complaint → Option Complaint × List Complaint
  | [] => (none, [])
  | c :: cs =>
      if c.cid == complaint_id then
        let c' := { c with status := status, updated_at := now }
        (some c', c' :: cs)
      else
        let rest := find_one_and_update complaint_id status now cs
        (rest.1, c :: rest.2)

inductive UpdateOutcome where
  | unauthorized
  | notFound
  | updated (emailSent : Option Bool)
deriving DecidableEq, Repr

/-- `update_complaint_status` (src/app.py lines 145-178): non-admin
callers are turned away with no write; otherwise atomically
find-and-update the complaint's `status` and `updated_at`; when the
complaint exists, look up its owner and attempt the notification email
(`emailSent = none` when the owner record is missing).  When no
complaint matches the id, nothing is written and the handler just
redirects (the NotFound outcome). -/
def update_complaint_status (callerRole : String) (complaint_id : Nat)
    (status : String) (now : DateTime) (users : List UserRec)
    (mailSend : Except String Unit)
    (st : List Complaint) : UpdateOutcome × List Complaint :=
  if callerRole ≠ "admin" then
    (UpdateOutcome.unauthorized, st)
  else
    let found := find_one_and_update complaint_id status now st
    match found.1 with
    | none => (UpdateOutcome.notFound, found.2)
    | some complaint =>
        match users.find? (fun u => u.uid == complaint.user_id) with
        | none => (UpdateOutcome.updated none, found.2)
        | some _ => (UpdateOutcome.updated (some (send_email mailSend)), found.2)

inductive RegisterOutcome where
  | emailExists
  | registered (emailSent : Bool)
deriving DecidableEq, Repr

/-- `register` (src/app.py lines 75-110): reject when the email already
exists, otherwise hash the password and insert the user record with the
caller-supplied role, then attempt the welcome email. -/
def register (hash : String → String) (newUid : Nat)
    (users : List UserRec) (email password role : String)
    (now : DateTime) (mailSend : Except String Unit) :
    RegisterOutcome × List UserRec :=
  if users.any (fun u => u.email == email) then
    (RegisterOutcome.emailExists, users)
  else
    let user_data : UserRec :=
      { uid := newUid
        email := email
        password := hash password
        role := role
        created_at := now }
    (RegisterOutcome.registered (send_email mailSend), users ++ [user_data])

inductive AdminDashboardOutcome where
  | redirectedToDashboard
  | rendered (total pending resolved : Nat)
deriving DecidableEq, Repr

/-- `admin_dashboard` (src/app.py lines 180-199): non-admins are
redirected to their own dashboard; admins get the complaint list with
total/pending/resolved statistics. -/
def admin_dashboard (callerRole : String)
    (st : List Complaint) : AdminDashboardOutcome :=
  if callerRole ≠ "admin" then
    AdminDashboardOutcome.redirectedToDashboard
  else
    AdminDashboardOutcome.rendered st.length
      (st.countP (fun c => c.status == "pending"))
      (st.countP (fun c => c.status == "resolved"))

/-- Statement-side meaning of "a is a substring of b" on character
lists (used to phrase claims; the code's operation is `occursIn`). -/
def SubstrSpec (a b : List Char) : Prop :=
  ∃ l r, b = l ++ a ++ r

/-- A complaint document used to instantiate theorems on concrete data. -/
def sampleComplaint : Complaint :=
  { cid := 0
    user_id := 0
    student_id := "S1"
    bus_route := "Route 1"
    title := "AC"
    description := "broken AC unit"
    loc := "front"
    status := "pending"
    created_at := 0
    updated_at := 0
    incident_date := 0 }


/-- A submit form with all fields filled, used for concrete instances. -/
def emptyDescForm : SubmitForm :=
  { student_id := some "S1"
    bus_route := some "Route 1"
    title := some "AC"
    description := some ""
    loc := some "front"
    incident_date := some "2024-03-01" }

/-- A submit form missing its student id, used for concrete instances. -/
def missingFieldForm : SubmitForm :=
  { student_id := none
    bus_route := some "Route 1"
    title := some "AC"
    description := some "broken AC"
    loc := some "front"
    incident_date := some "2024-03-01" }

/-- A fully filled form whose description duplicates `sampleComplaint`. -/
def dupForm : SubmitForm :=
  { student_id := some "S1"
    bus_route := some "Route 1"
    title := some "AC"
    description := some "broken ac"
    loc := some "front"
    incident_date := some "2024-03-01" }

theorem leadsList_iff (n h : List Char) :
    leadsList n h = true ↔ ∃ t, h = n ++ t := by
  induction n generalizing h with
  | nil => simp [leadsList]
  | cons a as ih =>
    cases h with
    | nil => simp [leadsList]
    | cons b bs =>
      simp only [leadsList, Bool.and_eq_true, beq_iff_eq, ih, List.cons_append,
        List.cons.injEq]
      constructor
      · rintro ⟨rfl, t, rfl⟩
        exact ⟨t, rfl, rfl⟩
      · rintro ⟨t, rfl, rfl⟩
        exact ⟨rfl, t, rfl⟩

theorem occursIn_iff (n h : List Char) :
    occursIn n h = true ↔ ∃ l r, h = l ++ n ++ r := by
  induction h with
  | nil =>
    simp only [occursIn, leadsList_iff]
    constructor
    · rintro ⟨t, ht⟩
      exact ⟨[], t, by simpa using ht⟩
    · rintro ⟨l, r, hlr⟩
      rcases List.append_eq_nil.1 hlr.symm with ⟨h1, h2⟩
      rcases List.append_eq_nil.1 h1 with ⟨rfl, rfl⟩
      exact ⟨[], by simp⟩
  | cons c t ih =>
    simp only [occursIn, Bool.or_eq_true, leadsList_iff, ih]
    constructor
    · rintro (⟨s, hs⟩ | ⟨l, r, rfl⟩)
      · exact ⟨[], s, by simpa using hs⟩
      · exact ⟨c :: l, r, by simp⟩
    · rintro ⟨l, r, hlr⟩
      cases l with
      | nil => exact Or.inl ⟨r, by simpa using hlr⟩
      | cons a l' =>
        simp only [List.cons_append, List.cons.injEq] at hlr
        exact Or.inr ⟨l', r, hlr.2⟩

theorem occursIn_iff_substr (a b : List Char) :
    occursIn a b = true ↔ SubstrSpec a b :=
  occursIn_iff a b

/-- Claim C1: for every route r, calendar date d, and non-empty
description s, the duplicate scan reports a duplicate iff some stored
complaint has bus route r, an incident date in the half-open window
[d, d + 1 day), and, after lowercasing, one description is a substring
of the other; moreover the per-candidate containment test is symmetric
in the two descriptions, and the scan is false when no stored complaint
on that route and day passes the containment test. -/
theorem dup_scan_characterization (st : List Complaint) (r : String)
    (d : Date) (s : String) (hs : s ≠ "") :
    (submitDupScan st r s (dateToDateTime d) = true ↔
      ∃ c ∈ st, c.bus_route = r ∧
        dateToDateTime d ≤ c.incident_date ∧
        c.incident_date < dateToDateTime d + minutesPerDay ∧
        (SubstrSpec (pyLower s) (pyLower c.description) ∨
         SubstrSpec (pyLower c.description) (pyLower s))) ∧
    (∀ a b : String,
      (occursIn (pyLower a) (pyLower b) || occursIn (pyLower b) (pyLower a)) =
      (occursIn (pyLower b) (pyLower a) || occursIn (pyLower a) (pyLower b))) := by
  constructor
  · simp only [submitDupScan, List.any_eq_true, List.mem_filter,
      Bool.and_eq_true, beq_iff_eq, decide_eq_true_eq, Bool.or_eq_true,
      occursIn_iff_substr]
    constructor
    · rintro ⟨c, ⟨hmem, hroute, hge, hlt⟩, hsub⟩
      exact ⟨c, hmem, hroute, hge, hlt, hsub⟩
    · rintro ⟨c, hmem, hroute, hge, hlt, hsub⟩
      exact ⟨c, ⟨hmem, hroute, hge, hlt⟩, hsub⟩
  · intro a b
    exact Bool.or_comm _ _

theorem dup_scan_characterization_witness :
    ("broken" : String) ≠ "" ∧
    ((submitDupScan [sampleComplaint] "Route 1" "broken" (dateToDateTime 0) = true ↔
       ∃ c ∈ [sampleComplaint], c.bus_route = "Route 1" ∧
         dateToDateTime 0 ≤ c.incident_date ∧
         c.incident_date < dateToDateTime 0 + minutesPerDay ∧
         (SubstrSpec (pyLower "broken") (pyLower c.description) ∨
          SubstrSpec (pyLower c.description) (pyLower "broken"))) ∧
     (∀ a b : String,
       (occursIn (pyLower a) (pyLower b) || occursIn (pyLower b) (pyLower a)) =
       (occursIn (pyLower b) (pyLower a) || occursIn (pyLower a) (pyLower b)))) :=
  ⟨by decide, dup_scan_characterization [sampleComplaint] "Route 1" 0 "broken" (by decide)⟩

theorem occursIn_nil_left (hay : List Char) : occursIn [] hay = true := by
  induction hay with
  | nil => rfl
  | cons c t ih => simp [occursIn, leadsList, ih]

/-- Claim C2 counterexample: the duplicate check invoked with the empty
description does report a duplicate once any complaint exists on the
same route and day (the empty string is a substring of everything);
here both the scan and the JSON endpoint answer duplicate for an empty
description against a store holding one Route 1 complaint of that day. -/
theorem empty_description_counterexample :
    endpointDupScan [sampleComplaint] "Route 1" "" (dateToDateTime 0) = true ∧
    check_duplicate_complaint (fun x => if x = "2024-03-01" then some 0 else none)
      "Route 1" "" "2024-03-01" [sampleComplaint] = CheckDupResult.ok true := by
  constructor
  · decide
  · simp only [check_duplicate_complaint, if_pos rfl]
    decide

/-- Claim C2 amended: on the submit path an empty description is
rejected by field validation before the duplicate check can run, so an
empty description is never eligible for duplicate suppression there;
the duplicate check itself, however (as exposed by the checkDuplicate
endpoint), reports a duplicate for the empty description exactly when
some complaint exists on the same route and day, because the empty
string is a substring of every description. -/
theorem empty_description_behavior (st : List Complaint) (r : String)
    (d : DateTime) (strptime : String → Option DateTime) (uid : Nat)
    (form : SubmitForm) (now : DateTime) (newId : Nat)
    (mail : Except String Unit) (st2 : List Complaint)
    (hform : form.description = some "") :
    (endpointDupScan st r "" d = true ↔
      ∃ c ∈ st, c.bus_route = r ∧ d ≤ c.incident_date ∧
        c.incident_date < d + minutesPerDay) ∧
    submit_complaint strptime uid form now newId mail st2 =
      (SubmitOutcome.validationError, st2) := by
  constructor
  · simp only [endpointDupScan, List.any_eq_true, List.mem_filter,
      Bool.and_eq_true, beq_iff_eq, decide_eq_true_eq, Bool.or_eq_true]
    constructor
    · rintro ⟨c, ⟨hmem, hroute, hge, hlt⟩, _⟩
      exact ⟨c, hmem, hroute, hge, hlt⟩
    · rintro ⟨c, hmem, hroute, hge, hlt⟩
      exact ⟨c, ⟨hmem, hroute, hge, hlt⟩, Or.inl (occursIn_nil_left _)⟩
  · simp [submit_complaint, hform, isBlank]

theorem empty_description_behavior_witness :
    emptyDescForm.description = some "" ∧
    ((endpointDupScan [sampleComplaint] "Route 1" "" 0 = true ↔
       ∃ c ∈ [sampleComplaint], c.bus_route = "Route 1" ∧ 0 ≤ c.incident_date ∧
         c.incident_date < 0 + minutesPerDay) ∧
     submit_complaint (fun _ => some 0) 0 emptyDescForm 0 0 (Except.ok ()) [] =
       (SubmitOutcome.validationError, [])) :=
  ⟨rfl, empty_description_behavior [sampleComplaint] "Route 1" 0 (fun _ => some 0)
    0 emptyDescForm 0 0 (Except.ok ()) [] rfl⟩

/-- Claim C3: the checkDuplicate endpoint's duplicate scan is the very
same function of the store and the inputs as the submit path's scan,
so the two paths always agree on the duplicate decision. -/
theorem endpoint_matches_submit_rule (st : List Complaint)
    (bus_route description : String) (incident_date : DateTime) :
    endpointDupScan st bus_route description incident_date =
    submitDupScan st bus_route description incident_date := rfl

/-- Claim C4: submit with any required field missing or empty returns
the validation error and writes nothing: the complaint store is
returned unchanged. -/
theorem submit_validation_no_write (strptime : String → Option DateTime)
    (uid : Nat) (form : SubmitForm) (now : DateTime) (newId : Nat)
    (mail : Except String Unit) (st : List Complaint)
    (h : isBlank form.student_id = true ∨ isBlank form.bus_route = true ∨
      isBlank form.title = true ∨ isBlank form.description = true ∨
      isBlank form.loc = true ∨ isBlank form.incident_date = true) :
    submit_complaint strptime uid form now newId mail st =
      (SubmitOutcome.validationError, st) := by
  unfold submit_complaint
  rcases h with h | h | h | h | h | h <;> simp [h]

theorem submit_validation_no_write_witness :
    (isBlank missingFieldForm.student_id = true ∨
      isBlank missingFieldForm.bus_route = true ∨
      isBlank missingFieldForm.title = true ∨
      isBlank missingFieldForm.description = true ∨
      isBlank missingFieldForm.loc = true ∨
      isBlank missingFieldForm.incident_date = true) ∧
    submit_complaint (fun _ => some 0) 0 missingFieldForm 0 0 (Except.ok ()) [] =
      (SubmitOutcome.validationError, []) :=
  ⟨Or.inl rfl, submit_validation_no_write (fun _ => some 0) 0 missingFieldForm
    0 0 (Except.ok ()) [] (Or.inl rfl)⟩

/-- Claim C5: when the validated inputs are judged a duplicate of an
existing complaint, submit rejects the request and the complaint store
is left unchanged: no new complaint document is persisted. -/
theorem submit_duplicate_no_write (strptime : String → Option DateTime)
    (uid : Nat) (form : SubmitForm) (now : DateTime) (newId : Nat)
    (mail : Except String Unit) (st : List Complaint) (d : DateTime)
    (hv : (isBlank form.student_id || isBlank form.bus_route ||
      isBlank form.title || isBlank form.description ||
      isBlank form.loc || isBlank form.incident_date) = false)
    (hp : strptime (form.incident_date.getD "") = some d)
    (hd : submitDupScan st (form.bus_route.getD "")
      (form.description.getD "") d = true) :
    submit_complaint strptime uid form now newId mail st =
      (SubmitOutcome.duplicateRejected, st) := by
  unfold submit_complaint
  simp [hv, hp, hd]

theorem submit_duplicate_no_write_witness :
    ((isBlank dupForm.student_id || isBlank dupForm.bus_route ||
      isBlank dupForm.title || isBlank dupForm.description ||
      isBlank dupForm.loc || isBlank dupForm.incident_date) = false) ∧
    ((fun _ : String => some (0 : DateTime)) (dupForm.incident_date.getD "") = some 0) ∧
    (submitDupScan [sampleComplaint] (dupForm.bus_route.getD "")
      (dupForm.description.getD "") 0 = true) ∧
    submit_complaint (fun _ => some 0) 0 dupForm 0 0 (Except.ok ()) [sampleComplaint] =
      (SubmitOutcome.duplicateRejected, [sampleComplaint]) :=
  ⟨rfl, rfl, by decide,
    submit_duplicate_no_write (fun _ => some 0) 0 dupForm 0 0 (Except.ok ())
      [sampleComplaint] 0 rfl rfl (by decide)⟩

/-- Claim C6: a caller whose role is not admin gets Unauthorized and
the complaint store is returned unchanged: no field of any complaint
is modified by the call. -/
theorem update_status_unauthorized (callerRole : String) (complaint_id : Nat)
    (status : String) (now : DateTime) (users : List UserRec)
    (mail : Except String Unit) (st : List Complaint)
    (h : callerRole ≠ "admin") :
    update_complaint_status callerRole complaint_id status now users mail st =
      (UpdateOutcome.unauthorized, st) := by
  simp [update_complaint_status, h]

theorem update_status_unauthorized_witness :
    ("student" : String) ≠ "admin" ∧
    update_complaint_status "student" 0 "resolved" 0 [] (Except.ok ()) [sampleComplaint] =
      (UpdateOutcome.unauthorized, [sampleComplaint]) :=
  ⟨by decide, update_status_unauthorized "student" 0 "resolved" 0 [] (Except.ok ())
    [sampleComplaint] (by decide)⟩

theorem find_one_and_update_not_found (complaint_id : Nat) (status : String)
    (now : DateTime) (st : List Complaint)
    (h : ∀ c ∈ st, c.cid ≠ complaint_id) :
    find_one_and_update complaint_id status now st = (none, st) := by
  induction st with
  | nil => rfl
  | cons a as ih =>
    have ha : (a.cid == complaint_id) = false := by
      simpa using h a (List.mem_cons_self a as)
    simp [find_one_and_update, ha,
      ih (fun c hc => h c (List.mem_cons_of_mem a hc))]

/-- Claim C7: an admin caller asking to update a complaint id that is
not present in the store gets the NotFound outcome (and the store is
unchanged). -/
theorem update_status_not_found (callerRole : String) (complaint_id : Nat)
    (status : String) (now : DateTime) (users : List UserRec)
    (mail : Except String Unit) (st : List Complaint)
    (hrole : callerRole = "admin")
    (h : ∀ c ∈ st, c.cid ≠ complaint_id) :
    update_complaint_status callerRole complaint_id status now users mail st =
      (UpdateOutcome.notFound, st) := by
  subst hrole
  simp [update_complaint_status,
    find_one_and_update_not_found complaint_id status now st h]

theorem update_status_not_found_witness :
    ("admin" : String) = "admin" ∧
    (∀ c ∈ [sampleComplaint], c.cid ≠ 7) ∧
    update_complaint_status "admin" 7 "resolved" 0 [] (Except.ok ()) [sampleComplaint] =
      (UpdateOutcome.notFound, [sampleComplaint]) :=
  ⟨rfl, by decide, update_status_not_found "admin" 7 "resolved" 0 [] (Except.ok ())
    [sampleComplaint] rfl (by decide)⟩

/-- Claim C8: notification is best-effort and non-fatal: send_email is
a total function reporting the transport outcome as a boolean (never
re-raising), and the complaint store left behind by submit and by
updateStatus is the same whatever the mail transport does, so a
notification failure never prevents or rolls back the persistence
write. -/
theorem notification_best_effort :
    (∀ e : String, send_email (Except.error e) = false) ∧
    send_email (Except.ok ()) = true ∧
    (∀ (strptime : String → Option DateTime) (uid : Nat) (form : SubmitForm)
      (now : DateTime) (newId : Nat) (m1 m2 : Except String Unit)
      (st : List Complaint),
      (submit_complaint strptime uid form now newId m1 st).2 =
      (submit_complaint strptime uid form now newId m2 st).2) ∧
    (∀ (callerRole : String) (complaint_id : Nat) (status : String)
      (now : DateTime) (users : List UserRec) (m1 m2 : Except String Unit)
      (st : List Complaint),
      (update_complaint_status callerRole complaint_id status now users m1 st).2 =
      (update_complaint_status callerRole complaint_id status now users m2 st).2) := by
  refine ⟨fun e => rfl, rfl, ?_, ?_⟩
  · intro strptime uid form now newId m1 m2 st
    unfold submit_complaint
    split
    · rfl
    · split
      · rfl
      · dsimp only
        split
        · rfl
        · rfl
  · intro callerRole complaint_id status now users m1 m2 st
    unfold update_complaint_status
    split
    · rfl
    · dsimp only
      split
      · rfl
      · split
        · rfl
        · rfl

theorem find_one_and_update_mem (complaint_id : Nat) (status : String)
    (now : DateTime) (st : List Complaint) (c' : Complaint)
    (h : c' ∈ (find_one_and_update complaint_id status now st).2) :
    c' ∈ st ∨ ∃ c ∈ st, c' = { c with status := status, updated_at := now } := by
  induction st with
  | nil => simp [find_one_and_update] at h
  | cons a as ih =>
    cases ha : (a.cid == complaint_id) with
    | true =>
      rw [show find_one_and_update complaint_id status now (a :: as) =
          (some { a with status := status, updated_at := now },
           { a with status := status, updated_at := now } :: as) by
        simp [find_one_and_update, ha]] at h
      rcases List.mem_cons.1 h with h | h
      · exact Or.inr ⟨a, List.mem_cons_self a as, h⟩
      · exact Or.inl (List.mem_cons_of_mem a h)
    | false =>
      rw [show find_one_and_update complaint_id status now (a :: as) =
          ((find_one_and_update complaint_id status now as).1,
           a :: (find_one_and_update complaint_id status now as).2) by
        simp [find_one_and_update, ha]] at h
      rcases List.mem_cons.1 h with h | h
      · exact Or.inl (h ▸ List.mem_cons_self a as)
      · rcases ih h with h' | ⟨c, hc, hc'⟩
        · exact Or.inl (List.mem_cons_of_mem a h')
        · exact Or.inr ⟨c, List.mem_cons_of_mem a hc, hc'⟩

/-- Claim C9: every operation preserves the invariant updated_at ≥
created_at (stated together with the clock bound that makes it
inductive): given a store whose complaints satisfy created_at ≤
updated_at ≤ t and a current time now ≥ t, every complaint in the
store left by submit (which stamps created_at = updated_at = now) and
by updateStatus (which stamps updated_at := now ≥ created_at) again
satisfies created_at ≤ updated_at ≤ now. -/
theorem timestamps_invariant (st : List Complaint) (t now : DateTime)
    (hinv : ∀ c ∈ st, c.created_at ≤ c.updated_at ∧ c.updated_at ≤ t)
    (ht : t ≤ now)
    (strptime : String → Option DateTime) (uid : Nat) (form : SubmitForm)
    (newId : Nat) (mail : Except String Unit)
    (callerRole : String) (complaint_id : Nat) (status : String)
    (users : List UserRec) (mail2 : Except String Unit) :
    (∀ c ∈ (submit_complaint strptime uid form now newId mail st).2,
      c.created_at ≤ c.updated_at ∧ c.updated_at ≤ now) ∧
    (∀ c ∈ (update_complaint_status callerRole complaint_id status now users mail2 st).2,
      c.created_at ≤ c.updated_at ∧ c.updated_at ≤ now) := by
  have hst : ∀ c ∈ st, c.created_at ≤ c.updated_at ∧ c.updated_at ≤ now :=
    fun c hc => ⟨(hinv c hc).1, le_trans (hinv c hc).2 ht⟩
  constructor
  · intro c hc
    unfold submit_complaint at hc
    split at hc
    · exact hst c hc
    · split at hc
      · exact hst c hc
      · dsimp only at hc
        split at hc
        · exact hst c hc
        · rcases List.mem_append.1 hc with h | h
          · exact hst c h
          · rcases List.mem_singleton.1 h with rfl
            exact ⟨Nat.le_refl now, Nat.le_refl now⟩
  · intro c hc
    unfold update_complaint_status at hc
    split at hc
    · exact hst c hc
    · dsimp only at hc
      have hmem : c ∈ (find_one_and_update complaint_id status now st).2 := by
        split at hc
        · exact hc
        · split at hc
          · exact hc
          · exact hc
      rcases find_one_and_update_mem complaint_id status now st c hmem with
        h | ⟨c0, hc0, rfl⟩
      · exact hst c h
      · exact ⟨le_trans (hst c0 hc0).1 (hst c0 hc0).2, Nat.le_refl now⟩

theorem timestamps_invariant_witness :
    (∀ c ∈ ([] : List Complaint),
      c.created_at ≤ c.updated_at ∧ c.updated_at ≤ 0) ∧ (0 : DateTime) ≤ 0 ∧
    ((∀ c ∈ (submit_complaint (fun _ => some 0) 0 dupForm 0 0 (Except.ok ()) []).2,
       c.created_at ≤ c.updated_at ∧ c.updated_at ≤ 0) ∧
     (∀ c ∈ (update_complaint_status "admin" 0 "resolved" 0 [] (Except.ok ()) []).2,
       c.created_at ≤ c.updated_at ∧ c.updated_at ≤ 0)) :=
  ⟨fun c hc => absurd hc (List.not_mem_nil c), Nat.le_refl 0,
    timestamps_invariant [] 0 0 (fun c hc => absurd hc (List.not_mem_nil c))
      (Nat.le_refl 0) (fun _ => some 0) 0 dupForm 0 (Except.ok ())
      "admin" 0 "resolved" [] (Except.ok ())⟩

/-- Claim C10: register stores the caller-supplied role string
verbatim with no restriction: with a fresh email the persisted record's
role is exactly the role argument, so a self-registration with role
"admin" yields an account that passes the admin-only gates of
updateStatus and of the admin dashboard. -/
theorem register_role_verbatim (hash : String → String) (newUid : Nat)
    (users : List UserRec) (email password role : String)
    (now : DateTime) (mail : Except String Unit)
    (hfresh : ∀ u ∈ users, u.email ≠ email) :
    register hash newUid users email password role now mail =
      (RegisterOutcome.registered (send_email mail),
        users ++ [⟨newUid, email, hash password, role, now⟩]) ∧
    (role = "admin" →
      (∀ (complaint_id : Nat) (status : String) (now2 : DateTime)
        (users2 : List UserRec) (mail2 : Except String Unit) (st : List Complaint),
        (update_complaint_status role complaint_id status now2 users2 mail2 st).1 ≠
          UpdateOutcome.unauthorized) ∧
      (∀ st : List Complaint,
        admin_dashboard role st ≠ AdminDashboardOutcome.redirectedToDashboard)) := by
  constructor
  · have hany : (users.any fun u => u.email == email) = false := by
      cases hcase : users.any fun u => u.email == email with
      | false => rfl
      | true =>
        rcases List.any_eq_true.1 hcase with ⟨u, hu, he⟩
        exact absurd (by simpa using he) (hfresh u hu)
    simp [register, hany]
  · rintro rfl
    constructor
    · intro complaint_id status now2 users2 mail2 st
      unfold update_complaint_status
      rw [if_neg (by simp)]
      dsimp only
      split
      · simp
      · split
        · simp
        · simp
    · intro st
      simp [admin_dashboard]

theorem register_role_verbatim_witness :
    (∀ u ∈ ([] : List UserRec), u.email ≠ "a@x.com") ∧
    (register (fun p => p ++ "hashed") 3 [] "a@x.com" "pw" "admin" 0 (Except.ok ()) =
      (RegisterOutcome.registered (send_email (Except.ok ())),
        [] ++ [⟨3, "a@x.com", (fun p : String => p ++ "hashed") "pw", "admin", 0⟩]) ∧
     (("admin" : String) = "admin" →
       (∀ (complaint_id : Nat) (status : String) (now2 : DateTime)
         (users2 : List UserRec) (mail2 : Except String Unit) (st : List Complaint),
         (update_complaint_status "admin" complaint_id status now2 users2 mail2 st).1 ≠
           UpdateOutcome.unauthorized) ∧
       (∀ st : List Complaint,
         admin_dashboard "admin" st ≠ AdminDashboardOutcome.redirectedToDashboard))) :=
  ⟨fun u hu => absurd hu (List.not_mem_nil u),
    register_role_verbatim (fun p => p ++ "hashed") 3 [] "a@x.com" "pw" "admin" 0
      (Except.ok ()) (fun u hu => absurd hu (List.not_mem_nil u))⟩
